import Mathlib

/-!
Verification of the Shop Platform Python SDK (`src/sdk/python/shop/client.py`)
against its design specification.

The SDK is shallowly embedded: Python dicts become association lists over a
`Json` value type, exceptions become an explicit `PyExc` error type threaded
through `Except`, and the retry engine the SDK configures
(`urllib3.util.retry.Retry`, version 1.26, via `requests.adapters.HTTPAdapter`)
becomes a state-passing interpreter over a script of per-attempt transport
outcomes.
-/
/-! ## JSON values and Python dicts -/

/-- A decoded JSON value (result of Python `json` decoding).  Numbers are
modelled as rationals; Python floats relevant to the claims (`0.0`, prices)
are exactly representable. -/
inductive Json where
  | null
  | bool (b : Bool)
  | num (q : ℚ)
  | str (s : String)
  | arr (elems : List Json)
  | obj (fields : List (String × Json))

/-- A Python dict with string keys, as produced by `json` decoding. -/
abbrev Dict := List (String × Json)

/-- `d.get(k)` / `d[k]`: first binding of `k` in `d` (Python dicts have unique
keys, so first-match lookup is faithful). -/
def dictLookup (d : Dict) (k : String) : Option Json :=
  match d with
  | [] => none
  | (k₀, v) :: rest => if k₀ = k then some v else dictLookup rest k

/-- Keys of a dict, in insertion order. -/
def dictKeys (d : Dict) : List String := d.map Prod.fst

/-! ## Python exceptions surfaced by the SDK -/

/-- The exceptions a call through the SDK can raise.  `shopAPIError` is the
typed `ShopAPIError(code, message, details)` of `client.py`; the remaining
constructors are the builtin Python exception classes that can escape the
code paths modelled here. -/
inductive PyExc where
  | shopAPIError (code : Json) (message : Json) (details : Json)
  | valueError
  | typeError
  | attributeError
  | keyError

/-- Does a result carry the SDK's typed API error? -/
def isTypedAPIError : Except PyExc Json → Bool
  | .error (.shopAPIError _ _ _) => true
  | _ => false

/-! ## HTTP responses and the error classifier (`ShopClient._request`, lines 235-252) -/

/-- An HTTP response as observed by `_request`:  status code, raw text body,
the result of `response.json()` (`none` when the body fails to parse, in which
case Python raises `ValueError`), and the parsed `Retry-After` header in
seconds (`none` when the header is absent). -/
structure Response where
  status : Nat
  text : String
  jsonBody : Option Json
  retryAfter : Option ℚ

/-- The response-handling tail of `ShopClient._request`:

* status `>= 400`: try `response.json()`; on success call
  `error_data.get("code", "unknown")` / `.get("message", response.text)` /
  `.get("details")` and raise `ShopAPIError`.  `.get` is only defined on
  dicts, so a body that parses to a non-object raises `AttributeError`;
  a body that fails to parse lands in `except ValueError` and raises
  `ShopAPIError("http_error", f"HTTP {status}: {text}")`.
* status `204`: return `{}` without touching the body.
* otherwise: return `response.json()` (`ValueError` propagates on
  unparseable bodies). -/
def handleResponse (r : Response) : Except PyExc Json :=
  if 400 ≤ r.status then
    match r.jsonBody with
    | some (Json.obj fields) =>
        .error (.shopAPIError
          ((dictLookup fields "code").getD (.str "unknown"))
          ((dictLookup fields "message").getD (.str r.text))
          ((dictLookup fields "details").getD .null))
    | some _ => .error .attributeError
    | none =>
        .error (.shopAPIError (.str "http_error")
          (.str ("HTTP " ++ toString r.status ++ ": " ++ r.text)) .null)
  else if r.status = 204 then
    .ok (Json.obj [])
  else
    match r.jsonBody with
    | some j => .ok j
    | none => .error .valueError

/-! ## The retry engine (`urllib3.util.retry.Retry` 1.26 as configured in
`ShopClient.__init__`, lines 194-202)

`ShopClient.__init__` mounts an `HTTPAdapter` built from
`Retry(total=max_retries, backoff_factor=0.5,
status_forcelist=[429, 500, 502, 503, 504])`.  All other `Retry` fields keep
their urllib3 defaults: `allowed_methods` is the idempotent-method allowlist
`{HEAD, GET, PUT, DELETE, OPTIONS, TRACE}`, `raise_on_status=True`,
`respect_retry_after_header=True`, and the per-class counters
(`connect`, `read`, `status`, `other`) are `None`, so only `total` counts. -/

/-- HTTP methods the SDK issues (plus the remaining entries of urllib3's
default allowlist). -/
inductive Method where
  | GET | POST | PUT | PATCH | DELETE | HEAD | OPTIONS | TRACE
deriving DecidableEq

/-- `Retry.DEFAULT_ALLOWED_METHODS`. -/
def allowedMethods : List Method :=
  [.HEAD, .GET, .PUT, .DELETE, .OPTIONS, .TRACE]

/-- `Retry._is_method_retryable`: with the default allowlist, only the
idempotent methods are eligible for status/read retries. -/
def isMethodRetryable (m : Method) : Bool := m ∈ allowedMethods

/-- `status_forcelist` as configured by `ShopClient.__init__`. -/
def statusForcelist : List Nat := [429, 500, 502, 503, 504]

/-- `Retry.RETRY_AFTER_STATUS_CODES`. -/
def retryAfterStatusCodes : List Nat := [413, 429, 503]

/-- `backoff_factor=0.5` as configured by `ShopClient.__init__`. -/
def backoff_factor : ℚ := 1/2

/-- `Retry.DEFAULT_BACKOFF_MAX = 120`. -/
def backoffMax : ℚ := 120

/-- `Retry.get_backoff_time`: zero for the first consecutive error, then
`min(120, backoff_factor * 2 ** (consecutive_errors - 1))`. -/
def getBackoffTime (bf : ℚ) (consecutiveErrors : Nat) : ℚ :=
  if consecutiveErrors ≤ 1 then 0
  else min backoffMax (bf * 2 ^ (consecutiveErrors - 1))

/-- `Retry.sleep(response)` for a status retry: honour a truthy parsed
`Retry-After` header, otherwise sleep the backoff.  `consecutiveErrors` is the
history length of the retry object doing the sleeping. -/
def sleepDelay (bf : ℚ) (consecutiveErrors : Nat) (retryAfter : Option ℚ) : ℚ :=
  match retryAfter with
  | some t => if 0 < t then t else getBackoffTime bf consecutiveErrors
  | none => getBackoffTime bf consecutiveErrors

/-- `Retry.is_retry(method, status, has_retry_after)`: the method gate comes
first, then the forcelist, then the Retry-After fallback (`total` truthy,
header present, status in `RETRY_AFTER_STATUS_CODES`). -/
def isRetry (total : Int) (m : Method) (status : Nat) (hasRetryAfter : Bool) : Bool :=
  if isMethodRetryable m = false then false
  else if status ∈ statusForcelist then true
  else decide (total ≠ 0) && hasRetryAfter && decide (status ∈ retryAfterStatusCodes)

/-- One transport-level outcome of a single HTTP attempt. -/
inductive Outcome where
  /-- The server produced a response. -/
  | resp (r : Response)
  /-- `ConnectTimeoutError` / `NewConnectionError`: a connection error,
  classified by `Retry._is_connection_error`, retried for every method. -/
  | connectionError
  /-- `ReadTimeoutError` / `ProtocolError`: a read error, classified by
  `Retry._is_read_error`, retried only for methods in the allowlist. -/
  | readError

/-- How `HTTPConnectionPool.urlopen` terminates for one logical call. -/
inductive ExecResult where
  /-- The response is handed back to `ShopClient._request`. -/
  | response (r : Response)
  /-- `MaxRetryError(ResponseError("too many {status} error responses"))`
  after exhausting status retries with `raise_on_status=True`; `requests`
  surfaces it as `RetryError`. -/
  | retryError (lastStatus : Nat)
  /-- `MaxRetryError` after exhausting connection-error retries; `requests`
  surfaces it as a connection error / connect timeout. -/
  | connectFailure
  /-- A read error reraised immediately (non-retryable method) or after
  exhausting retries. -/
  | readFailure
  /-- Model artifact: the outcome script ran out of attempts. -/
  | scriptExhausted

/-- Observable trace of one logical call: how many attempts were made, the
sleeps between them, and how the call ended. -/
structure ExecTrace where
  attempts : Nat
  delays : List ℚ
  result : ExecResult

/-- The retry loop of `HTTPConnectionPool.urlopen` as configured by the SDK
(no redirects; only `total` counts).  `total` is the remaining `Retry.total`,
`hist` the current history length, and the script supplies the outcome of each
successive attempt.  Each `Retry.increment` decrements `total`, appends to the
history, and raises `MaxRetryError` when the new total is negative
(`is_exhausted`); otherwise the loop sleeps (`Retry.sleep`) and re-issues the
request. -/
def urlopen (bf : ℚ) (total : Int) (hist : Nat) (m : Method) :
    List Outcome → ExecTrace
  | [] => ⟨0, [], .scriptExhausted⟩
  | .resp r :: rest =>
      if isRetry total m r.status r.retryAfter.isSome then
        if total - 1 < 0 then ⟨1, [], .retryError r.status⟩
        else
          let d := sleepDelay bf (hist + 1) r.retryAfter
          let t := urlopen bf (total - 1) (hist + 1) m rest
          ⟨t.attempts + 1, d :: t.delays, t.result⟩
      else ⟨1, [], .response r⟩
  | .connectionError :: rest =>
      if total - 1 < 0 then ⟨1, [], .connectFailure⟩
      else
        let d := getBackoffTime bf (hist + 1)
        let t := urlopen bf (total - 1) (hist + 1) m rest
        ⟨t.attempts + 1, d :: t.delays, t.result⟩
  | .readError :: rest =>
      if isMethodRetryable m = false then ⟨1, [], .readFailure⟩
      else if total - 1 < 0 then ⟨1, [], .readFailure⟩
      else
        let d := getBackoffTime bf (hist + 1)
        let t := urlopen bf (total - 1) (hist + 1) m rest
        ⟨t.attempts + 1, d :: t.delays, t.result⟩

/-- One logical call through the session mounted by `ShopClient.__init__`
with `max_retries` (default 3). -/
def shopExec (maxRetries : Nat) (m : Method) (script : List Outcome) : ExecTrace :=
  urlopen backoff_factor (maxRetries : Int) 0 m script

/-- The backoff schedule produced by the SDK's configuration: the sleep before
retry `k+1` uses history length `k+1`. -/
def defaultBackoffs (n : Nat) : List ℚ :=
  (List.range n).map (fun k => getBackoffTime backoff_factor (k + 1))

/-! ## Resource routers (request assembly)

Each router method assembles query parameters or a JSON body and delegates to
`ShopClient._request`.  Only the assembly is modelled; optional arguments that
Python defaults to `None` become `Option` arguments (the Python default values
are recorded in each definition's comment). -/

/-- A request as handed to `ShopClient._request`: HTTP method, path, query
parameters (`params`) and JSON body (`json`). -/
structure RequestSpec where
  method : Method
  path : String
  params : Dict
  body : Option Dict

/-- Python truthiness of an optional float argument: `None` and `0.0` are
falsy. -/
def pyTruthyNum : Option ℚ → Bool
  | none => false
  | some x => decide (x ≠ 0)

/-- Python truthiness of an optional string argument: `None` and `""` are
falsy. -/
def pyTruthyStr : Option String → Bool
  | none => false
  | some s => decide (s ≠ "")

/-- `ProductsAPI.create` body assembly (lines 278-290): the seven base fields
always appear (`images or []` replaces a falsy images argument with `[]`);
`compare_at_price` and `attributes` are appended only when truthy
(`if compare_at_price:` / `if attributes:`).  Python defaults:
`images=None`, `inventory=0`, `compare_at_price=None`, `attributes=None`. -/
def products_create_body (sku name description : String) (price : ℚ)
    (category_id : String) (images : Option (List String)) (inventory : ℚ)
    (compare_at_price : Option ℚ) (attributes : Option (List (String × String))) :
    Dict :=
  let data : Dict :=
    [("sku", .str sku), ("name", .str name), ("description", .str description),
     ("price", .num price), ("category_id", .str category_id),
     ("images", .arr ((images.getD []).map .str)),
     ("inventory", .num inventory)]
  let data :=
    match compare_at_price with
    | some c => if c ≠ 0 then data ++ [("compare_at_price", .num c)] else data
    | none => data
  match attributes with
  | some a =>
      if a ≠ [] then data ++ [("attributes", .obj (a.map (fun p => (p.1, .str p.2))))]
      else data
  | none => data

/-- `ProductsAPI.create` request: `POST /products` with the assembled body. -/
def products_create_req (sku name description : String) (price : ℚ)
    (category_id : String) (images : Option (List String)) (inventory : ℚ)
    (compare_at_price : Option ℚ) (attributes : Option (List (String × String))) :
    RequestSpec :=
  ⟨.POST, "/products", [],
   some (products_create_body sku name description price category_id images
     inventory compare_at_price attributes)⟩

/-- `ProductsAPI.list` (lines 309-326): `GET /products` with
`params = {"page": page, "limit": limit}` extended by `category_id`, `status`
and `search` only when truthy.  Python defaults: `page=1`, `limit=20`, the
three filters `None`. -/
def products_list_req (page limit : ℚ)
    (category_id status search : Option String) : RequestSpec :=
  let params : Dict := [("page", .num page), ("limit", .num limit)]
  let params :=
    match category_id with
    | some c => if c ≠ "" then params ++ [("category_id", .str c)] else params
    | none => params
  let params :=
    match status with
    | some s => if s ≠ "" then params ++ [("status", .str s)] else params
    | none => params
  let params :=
    match search with
    | some s => if s ≠ "" then params ++ [("search", .str s)] else params
    | none => params
  ⟨.GET, "/products", params, none⟩

/-- `OrdersAPI.cancel` (lines 431-436): `POST /orders/{id}/cancel` with body
`{"reason": reason}` — the key is always present, `None` serialising to JSON
`null`.  Python default: `reason=None`. -/
def orders_cancel_req (order_id : String) (reason : Option String) : RequestSpec :=
  ⟨.POST, "/orders/" ++ order_id ++ "/cancel", [],
   some [("reason", reason.elim Json.null Json.str)]⟩

/-- `OrdersAPI.refund` (lines 438-450): `POST /orders/{id}/refund` with body
`{"amount": amount, "reason": reason}` — both keys always present, `None`
serialising to JSON `null`.  Python defaults: `amount=None`, `reason=None`. -/
def orders_refund_req (order_id : String) (amount : Option ℚ)
    (reason : Option String) : RequestSpec :=
  ⟨.POST, "/orders/" ++ order_id ++ "/refund", [],
   some [("amount", amount.elim Json.null Json.num),
         ("reason", reason.elim Json.null Json.str)]⟩

/-- `WebhooksAPI.update` body assembly (lines 489-495): `url` and `events`
are added when truthy, `active` when not `None` (`if active is not None:`).
Python defaults: all three `None`. -/
def webhooks_update_body (url : Option String) (events : Option (List String))
    (active : Option Bool) : Dict :=
  let data : Dict := []
  let data :=
    match url with
    | some u => if u ≠ "" then data ++ [("url", .str u)] else data
    | none => data
  let data :=
    match events with
    | some es => if es ≠ [] then data ++ [("events", .arr (es.map .str))] else data
    | none => data
  match active with
  | some b => data ++ [("active", .bool b)]
  | none => data

/-! ## Entity codec: `OrderStatus` and `Order.from_dict` (lines 22-29, 125-131) -/

/-- The closed `OrderStatus` enumeration. -/
inductive OrderStatus where
  | pending | paid | processing | shipped | delivered | cancelled | refunded
deriving DecidableEq

/-- The canonical string of each `OrderStatus` member (`.value`). -/
def OrderStatus.value : OrderStatus → String
  | .pending => "pending"
  | .paid => "paid"
  | .processing => "processing"
  | .shipped => "shipped"
  | .delivered => "delivered"
  | .cancelled => "cancelled"
  | .refunded => "refunded"

/-- The closed set of `OrderStatus` member strings. -/
def orderStatusStrings : List String :=
  ["pending", "paid", "processing", "shipped", "delivered", "cancelled", "refunded"]

/-- Value lookup `OrderStatus(s)` for a string `s`: the member whose value is
`s`, if any. -/
def orderStatusOfString (s : String) : Option OrderStatus :=
  if s = "pending" then some .pending
  else if s = "paid" then some .paid
  else if s = "processing" then some .processing
  else if s = "shipped" then some .shipped
  else if s = "delivered" then some .delivered
  else if s = "cancelled" then some .cancelled
  else if s = "refunded" then some .refunded
  else none

/-- `OrderStatus(x)` on a decoded JSON value: a member string yields the
member, anything else raises `ValueError`. -/
def orderStatusOfJson : Json → Except PyExc OrderStatus
  | .str s =>
      match orderStatusOfString s with
      | some st => .ok st
      | none => .error .valueError
  | _ => .error .valueError

/-- `Address(**d)`: Python dataclasses perform no runtime type validation, so
every field holds an arbitrary decoded value; the three trailing fields
default to `None`. -/
structure Address where
  first_name : Json
  last_name : Json
  address1 : Json
  city : Json
  region : Json
  postal_code : Json
  country : Json
  company : Json
  address2 : Json
  phone : Json

def addressRequiredKeys : List String :=
  ["first_name", "last_name", "address1", "city", "region", "postal_code", "country"]

def addressAllKeys : List String :=
  addressRequiredKeys ++ ["company", "address2", "phone"]

/-- Keyword-argument admissibility for `cls(**d)`: every required field is
bound and no key falls outside the declared fields — otherwise Python raises
`TypeError`. -/
def kwargsOk (d : Dict) (required all : List String) : Bool :=
  required.all (fun k => (dictLookup d k).isSome) &&
    (dictKeys d).all (fun k => decide (k ∈ all))

/-- `x` used as `**x`: only a mapping is accepted, otherwise `TypeError`. -/
def asObj : Json → Except PyExc Dict
  | .obj fs => .ok fs
  | _ => .error .typeError

def buildAddress (d : Dict) : Except PyExc Address :=
  if kwargsOk d addressRequiredKeys addressAllKeys then
    .ok { first_name := (dictLookup d "first_name").getD .null
          last_name := (dictLookup d "last_name").getD .null
          address1 := (dictLookup d "address1").getD .null
          city := (dictLookup d "city").getD .null
          region := (dictLookup d "region").getD .null
          postal_code := (dictLookup d "postal_code").getD .null
          country := (dictLookup d "country").getD .null
          company := (dictLookup d "company").getD .null
          address2 := (dictLookup d "address2").getD .null
          phone := (dictLookup d "phone").getD .null }
  else .error .typeError

/-- `OrderItem(**d)`: `variant_id` defaults to `None`. -/
structure OrderItem where
  product_id : Json
  sku : Json
  name : Json
  quantity : Json
  price : Json
  total_price : Json
  variant_id : Json

def orderItemRequiredKeys : List String :=
  ["product_id", "sku", "name", "quantity", "price", "total_price"]

def orderItemAllKeys : List String := orderItemRequiredKeys ++ ["variant_id"]

def buildOrderItem (d : Dict) : Except PyExc OrderItem :=
  if kwargsOk d orderItemRequiredKeys orderItemAllKeys then
    .ok { product_id := (dictLookup d "product_id").getD .null
          sku := (dictLookup d "sku").getD .null
          name := (dictLookup d "name").getD .null
          quantity := (dictLookup d "quantity").getD .null
          price := (dictLookup d "price").getD .null
          total_price := (dictLookup d "total_price").getD .null
          variant_id := (dictLookup d "variant_id").getD .null }
  else .error .typeError

/-- Iterating a decoded JSON value with `for item in ...`: arrays yield their
elements, strings their one-character substrings, dicts their keys; the other
values raise `TypeError`. -/
def asIterable : Json → Except PyExc (List Json)
  | .arr xs => .ok xs
  | .str s => .ok (s.data.map (fun c => Json.str (String.mk [c])))
  | .obj fs => .ok (fs.map (fun p => Json.str p.1))
  | _ => .error .typeError

/-- The typed `Order` entity (status validated, addresses and items decoded;
the remaining dataclass fields hold their raw decoded values). -/
structure Order where
  id : Json
  order_number : Json
  status : OrderStatus
  customer_email : Json
  customer_name : Json
  shipping_address : Address
  billing_address : Address
  items : List OrderItem
  subtotal : Json
  shipping_cost : Json
  tax : Json
  discount : Json
  total : Json
  currency : Json
  created_at : Json
  updated_at : Json
  notes : Json

def orderRequiredKeys : List String :=
  ["id", "order_number", "status", "customer_email", "customer_name",
   "shipping_address", "billing_address", "items", "subtotal", "shipping_cost",
   "tax", "discount", "total", "currency", "created_at", "updated_at"]

def orderAllKeys : List String := orderRequiredKeys ++ ["notes"]

/-- `d[k]`: `KeyError` when the key is missing. -/
def dictGet (d : Dict) (k : String) : Except PyExc Json :=
  match dictLookup d k with
  | some v => .ok v
  | none => .error .keyError

/-- `Order.from_dict` (lines 125-131): convert `status` through
`OrderStatus(...)` first, then the two addresses through `Address(**...)`,
then each item through `OrderItem(**...)`, and finally call `cls(**data)`
(the replaced keys leave the key set unchanged). -/
def Order.from_dict (d : Dict) : Except PyExc Order := do
  let statusJ ← dictGet d "status"
  let status ← orderStatusOfJson statusJ
  let shipJ ← dictGet d "shipping_address"
  let ship ← asObj shipJ >>= buildAddress
  let billJ ← dictGet d "billing_address"
  let bill ← asObj billJ >>= buildAddress
  let itemsJ ← dictGet d "items"
  let itemsL ← asIterable itemsJ
  let items ← itemsL.mapM (fun it => asObj it >>= buildOrderItem)
  if kwargsOk d orderRequiredKeys orderAllKeys then
    .ok { id := (dictLookup d "id").getD .null
          order_number := (dictLookup d "order_number").getD .null
          status := status
          customer_email := (dictLookup d "customer_email").getD .null
          customer_name := (dictLookup d "customer_name").getD .null
          shipping_address := ship
          billing_address := bill
          items := items
          subtotal := (dictLookup d "subtotal").getD .null
          shipping_cost := (dictLookup d "shipping_cost").getD .null
          tax := (dictLookup d "tax").getD .null
          discount := (dictLookup d "discount").getD .null
          total := (dictLookup d "total").getD .null
          currency := (dictLookup d "currency").getD .null
          created_at := (dictLookup d "created_at").getD .null
          updated_at := (dictLookup d "updated_at").getD .null
          notes := (dictLookup d "notes").getD .null }
  else .error .typeError

/-! ## Signature verifier (`WebhooksAPI.verify_signature`, lines 502-508)

`verify_signature` computes `hmac.new(secret.encode(), payload.encode(),
hashlib.sha256).hexdigest()` and compares it to the provided signature with
`hmac.compare_digest`.  SHA-256 (FIPS 180-4) and HMAC (RFC 2104) are embedded
over byte lists (`Nat` values below 256); 32-bit words are `Nat` reduced
modulo `2 ^ 32`. -/

/-- Truncation to a 32-bit word. -/
def w32 (n : Nat) : Nat := n % 4294967296

/-- 32-bit right rotation. -/
def rotr (x n : Nat) : Nat := w32 ((x >>> n) ||| (x <<< (32 - n)))

/-- 32-bit complement. -/
def bnot32 (x : Nat) : Nat := Nat.xor x 4294967295

def ch32 (x y z : Nat) : Nat := Nat.xor (x &&& y) (bnot32 x &&& z)

def maj32 (x y z : Nat) : Nat := Nat.xor (Nat.xor (x &&& y) (x &&& z)) (y &&& z)

def bsig0 (x : Nat) : Nat := Nat.xor (Nat.xor (rotr x 2) (rotr x 13)) (rotr x 22)

def bsig1 (x : Nat) : Nat := Nat.xor (Nat.xor (rotr x 6) (rotr x 11)) (rotr x 25)

def ssig0 (x : Nat) : Nat := Nat.xor (Nat.xor (rotr x 7) (rotr x 18)) (x >>> 3)

def ssig1 (x : Nat) : Nat := Nat.xor (Nat.xor (rotr x 17) (rotr x 19)) (x >>> 10)

/-- SHA-256 initial hash value (decimal words). -/
def sha256H0 : List Nat :=
  [1779033703, 3144134277, 1013904242, 2773480762,
   1359893119, 2600822924, 528734635, 1541459225]

/-- SHA-256 round constants (decimal). -/
def sha256K : List Nat :=
  [1116352408, 1899447441, 3049323471, 3921009573,
   961987163, 1508970993, 2453635748, 2870763221,
   3624381080, 310598401, 607225278, 1426881987,
   1925078388, 2162078206, 2614888103, 3248222580,
   3835390401, 4022224774, 264347078, 604807628,
   770255983, 1249150122, 1555081692, 1996064986,
   2554220882, 2821834349, 2952996808, 3210313671,
   3336571891, 3584528711, 113926993, 338241895,
   666307205, 773529912, 1294757372, 1396182291,
   1695183700, 1986661051, 2177026350, 2456956037,
   2730485921, 2820302411, 3259730800, 3345764771,
   3516065817, 3600352804, 4094571909, 275423344,
   430227734, 506948616, 659060556, 883997877,
   958139571, 1322822218, 1537002063, 1747873779,
   1955562222, 2024104815, 2227730452, 2361852424,
   2428436474, 2756734187, 3204031479, 3329325298]

/-- Extend a message schedule held in reverse (newest word first) by `n`
words: `W[t] = ssig1 W[t-2] + W[t-7] + ssig0 W[t-15] + W[t-16]`. -/
def schedRev (acc : List Nat) : Nat → List Nat
  | 0 => acc
  | n + 1 =>
      schedRev
        (w32 (ssig1 (acc.getD 1 0) + acc.getD 6 0 + ssig0 (acc.getD 14 0)
          + acc.getD 15 0) :: acc) n

/-- Full 64-word message schedule from a 16-word block. -/
def schedule (block : List Nat) : List Nat := (schedRev block.reverse 48).reverse

/-- One SHA-256 round on the working state `[a,b,c,d,e,f,g,h]`. -/
def sha256Round (st : List Nat) (kw : Nat × Nat) : List Nat :=
  match st with
  | [a, b, c, d, e, f, g, h] =>
      let t1 := w32 (h + bsig1 e + ch32 e f g + kw.1 + kw.2)
      let t2 := w32 (bsig0 a + maj32 a b c)
      [w32 (t1 + t2), a, b, c, w32 (d + t1), e, f, g]
  | other => other

/-- SHA-256 compression of one 16-word block into the hash state. -/
def sha256Compress (h : List Nat) (block : List Nat) : List Nat :=
  let st := (sha256K.zip (schedule block)).foldl sha256Round h
  (h.zip st).map (fun p => w32 (p.1 + p.2))

/-- Big-endian byte expansion (`numBytes` bytes). -/
def toBytesBE (numBytes n : Nat) : List Nat :=
  (List.range numBytes).map (fun i => (n >>> (8 * (numBytes - 1 - i))) % 256)

/-- FIPS 180-4 padding: append `0x80`, zero bytes to 56 mod 64, then the
bit length as eight big-endian bytes. -/
def padMessage (msg : List Nat) : List Nat :=
  let zeros := (64 - (msg.length + 9) % 64) % 64
  msg ++ 0x80 :: List.replicate zeros 0 ++ toBytesBE 8 (8 * msg.length)

/-- Group bytes into big-endian 32-bit words. -/
def bytesToWords : List Nat → List Nat
  | b0 :: b1 :: b2 :: b3 :: rest =>
      ((((b0 <<< 8) ||| b1) <<< 8 ||| b2) <<< 8 ||| b3) :: bytesToWords rest
  | _ => []

/-- Split a word list into 16-word blocks (fuel-driven). -/
def toBlocksAux : Nat → List Nat → List (List Nat)
  | 0, _ => []
  | _, [] => []
  | fuel + 1, ws => ws.take 16 :: toBlocksAux fuel (ws.drop 16)

def toBlocks (ws : List Nat) : List (List Nat) := toBlocksAux ws.length ws

/-- SHA-256 digest (32 bytes) of a byte list. -/
def sha256Bytes (msg : List Nat) : List Nat :=
  let final := (toBlocks (bytesToWords (padMessage msg))).foldl sha256Compress sha256H0
  final.foldr (fun word acc => toBytesBE 4 word ++ acc) []

/-- HMAC-SHA256 (RFC 2104) over byte lists: keys longer than the 64-byte
block are hashed first, then zero-padded; digest =
`H((k ⊕ opad) ‖ H((k ⊕ ipad) ‖ msg))`. -/
def hmacSha256 (key msg : List Nat) : List Nat :=
  let k0 := if 64 < key.length then sha256Bytes key else key
  let kPad := k0 ++ List.replicate (64 - k0.length) 0
  let inner := sha256Bytes ((kPad.map (fun b => Nat.xor b 0x36)) ++ msg)
  sha256Bytes ((kPad.map (fun b => Nat.xor b 0x5c)) ++ inner)

/-- Lowercase hexadecimal digit. -/
def hexDigitChar (n : Nat) : Char :=
  if n % 16 < 10 then Char.ofNat (48 + n % 16) else Char.ofNat (87 + n % 16)

/-- Two lowercase hex digits of a byte. -/
def byteToHex (b : Nat) : List Char := [hexDigitChar (b / 16), hexDigitChar b]

/-- `.hexdigest()`: lowercase hexadecimal encoding of a byte list. -/
def bytesToHexStr (bs : List Nat) : String :=
  String.mk (bs.foldr (fun b acc => byteToHex b ++ acc) [])

/-- `str.encode()`: UTF-8 bytes of a string (Lean strings hold Unicode scalar
values, so the encoding never fails). -/
def utf8EncodeCodepoint (c : Nat) : List Nat :=
  if c < 0x80 then [c]
  else if c < 0x800 then
    [0xc0 ||| (c >>> 6), 0x80 ||| (c &&& 0x3f)]
  else if c < 0x10000 then
    [0xe0 ||| (c >>> 12), 0x80 ||| ((c >>> 6) &&& 0x3f), 0x80 ||| (c &&& 0x3f)]
  else
    [0xf0 ||| (c >>> 18), 0x80 ||| ((c >>> 12) &&& 0x3f),
     0x80 ||| ((c >>> 6) &&& 0x3f), 0x80 ||| (c &&& 0x3f)]

def strBytes (s : String) : List Nat :=
  s.data.foldr (fun c acc => utf8EncodeCodepoint c.toNat ++ acc) []

/-- Is every character of the string ASCII? -/
def strAscii (s : String) : Bool := s.data.all (fun c => c.toNat < 128)

/-- `hmac.compare_digest(a, b)` on `str` arguments: both must be ASCII-only,
otherwise Python raises `TypeError`; on ASCII strings it is a (constant-time)
equality test. -/
def compare_digest (a b : String) : Except PyExc Bool :=
  if strAscii a && strAscii b then .ok (decide (a = b))
  else .error .typeError

/-- The expected signature `hmac.new(secret.encode(), payload.encode(),
hashlib.sha256).hexdigest()`. -/
def expectedSigHex (secret payload : String) : String :=
  bytesToHexStr (hmacSha256 (strBytes secret) (strBytes payload))

/-- `WebhooksAPI.verify_signature(payload, signature, secret)`. -/
def verify_signature (payload signature secret : String) : Except PyExc Bool :=
  compare_digest signature (expectedSigHex secret payload)

/-! ## Helper lemmas for the signature verifier -/

/-! ## Helper lemmas for the retry loop -/

/-! ## Concrete inputs used in witnesses and counterexamples -/

/-- A 503 Service Unavailable response with empty unparseable body and no
`Retry-After` header. -/
def resp503 : Response := ⟨503, "", none, none⟩

/-- Does `response.json()` yield an object, or fail to parse?  (The two body
shapes for which the error classifier raises a typed `ShopAPIError`.) -/
def objOrUnparseable : Option Json → Bool
  | none => true
  | some (Json.obj _) => true
  | _ => false

/-- Flip one bit of the code point of the first character of a string: a
single-bit mutation at the Python `str` level. -/
def flipCharBit0 (s : String) (bit : Nat) : String :=
  match s.data with
  | [] => s
  | c :: cs => String.mk (Char.ofNat (Nat.xor c.toNat (2 ^ bit)) :: cs)

/-- A raw order object whose `status` is the out-of-enumeration string
`"archived"`. -/
def orderDictArchived : Dict := [("status", Json.str "archived")]

/-- A complete, well-formed raw order object (status `"paid"`). -/
def validOrderDict : Dict :=
  [("id", Json.str "ord_1"), ("order_number", Json.str "1001"),
   ("status", Json.str "paid"), ("customer_email", Json.str "a@b.c"),
   ("customer_name", Json.str "A B"),
   ("shipping_address", Json.obj
     [("first_name", Json.str "A"), ("last_name", Json.str "B"),
      ("address1", Json.str "1 Way"), ("city", Json.str "X"),
      ("region", Json.str "Y"), ("postal_code", Json.str "12345"),
      ("country", Json.str "US")]),
   ("billing_address", Json.obj
     [("first_name", Json.str "A"), ("last_name", Json.str "B"),
      ("address1", Json.str "1 Way"), ("city", Json.str "X"),
      ("region", Json.str "Y"), ("postal_code", Json.str "12345"),
      ("country", Json.str "US")]),
   ("items", Json.arr
     [Json.obj
       [("product_id", Json.str "p1"), ("sku", Json.str "S1"),
        ("name", Json.str "N"), ("quantity", Json.num 2),
        ("price", Json.num 5), ("total_price", Json.num 10)]]),
   ("subtotal", Json.num 10), ("shipping_cost", Json.num 0),
   ("tax", Json.num 1), ("discount", Json.num 0), ("total", Json.num 11),
   ("currency", Json.str "USD"), ("created_at", Json.str "2024-01-01"),
   ("updated_at", Json.str "2024-01-02")]

/-! ## Theorems -/

theorem dictLookup_append (a b : Dict) (k : String) :
    dictLookup (a ++ b) k =
      match dictLookup a k with
      | some v => some v
      | none => dictLookup b k := by
  induction a with
  | nil => rfl
  | cons hd tl ih =>
      obtain ⟨k₀, v⟩ := hd
      by_cases h : k₀ = k <;> simp [dictLookup, h, ih]

/-- Sanity check of the SHA-256 embedding against the published digest of the
empty message. -/
theorem sha256_empty_vector :
    bytesToHexStr (sha256Bytes []) =
      "e3b0c44298fc1c149afbf4c8996fb92427ae41e4649b934ca495991b7852b855" := by
  rfl

set_option maxRecDepth 4000 in
/-- Sanity check of the HMAC-SHA256 embedding against RFC 4231 test case 2. -/
theorem hmac_rfc4231_case2 :
    bytesToHexStr (hmacSha256 (strBytes "Jefe") (strBytes "what do ya want for nothing?")) =
      "5bdcc146bf60754e6a042426089575c75a003f089d2739839dec58b964ec3843" := by
  rfl

set_option maxRecDepth 4000 in
/-- Sanity check: the expected signature of the empty payload under the empty
secret matches the published HMAC-SHA256 value. -/
theorem hmac_empty_vector :
    expectedSigHex "" "" =
      "b613679a0814d9ec772f95d778c35fc5ff1697c493715653c6c712144292c5ad" := by
  rfl

theorem hexDigitChar_ascii (n : Nat) : (hexDigitChar n).toNat < 128 := by
  unfold hexDigitChar
  have h : n % 16 < 16 := Nat.mod_lt _ (by norm_num)
  revert h
  generalize n % 16 = k
  intro h
  interval_cases k <;> decide

theorem bytesToHexStr_ascii (bs : List Nat) : strAscii (bytesToHexStr bs) = true := by
  induction bs with
  | nil => rfl
  | cons b tl ih =>
      have h1 := hexDigitChar_ascii (b / 16)
      have h2 := hexDigitChar_ascii b
      simpa [bytesToHexStr, strAscii, byteToHex, List.all_append, h1, h2] using ih

/-- On an ASCII signature, `verify_signature` returns the boolean equality of
the signature with the expected hex digest. -/
theorem verify_signature_ascii (payload signature secret : String)
    (h : strAscii signature = true) :
    verify_signature payload signature secret =
      .ok (decide (signature = expectedSigHex secret payload)) := by
  have ha : strAscii (expectedSigHex secret payload) = true :=
    bytesToHexStr_ascii _
  simp [verify_signature, compare_digest, h, ha]

/-- On a non-ASCII signature, `verify_signature` raises `TypeError` out of
`hmac.compare_digest`. -/
theorem verify_signature_nonascii (payload signature secret : String)
    (h : strAscii signature = false) :
    verify_signature payload signature secret = .error .typeError := by
  simp [verify_signature, compare_digest, h]

theorem range_map_shift {α : Type} (f : Nat → α) (t : Nat) :
    (List.range (t + 1)).map f = f 0 :: (List.range t).map (fun k => f (k + 1)) := by
  rw [List.range_succ_eq_map, List.map_cons, List.map_map]
  rfl

theorem urlopen_resp_retry (bf : ℚ) (total : Int) (hist : Nat) (m : Method)
    (r : Response) (rest : List Outcome)
    (h1 : isRetry total m r.status r.retryAfter.isSome = true)
    (h2 : ¬ total - 1 < 0) :
    urlopen bf total hist m (Outcome.resp r :: rest) =
      ⟨(urlopen bf (total - 1) (hist + 1) m rest).attempts + 1,
       sleepDelay bf (hist + 1) r.retryAfter ::
         (urlopen bf (total - 1) (hist + 1) m rest).delays,
       (urlopen bf (total - 1) (hist + 1) m rest).result⟩ := by
  simp [urlopen, h1, h2]

theorem urlopen_resp_exhaust (bf : ℚ) (total : Int) (hist : Nat) (m : Method)
    (r : Response) (rest : List Outcome)
    (h1 : isRetry total m r.status r.retryAfter.isSome = true)
    (h2 : total - 1 < 0) :
    urlopen bf total hist m (Outcome.resp r :: rest) =
      ⟨1, [], ExecResult.retryError r.status⟩ := by
  simp [urlopen, h1, h2]

theorem urlopen_resp_return (bf : ℚ) (total : Int) (hist : Nat) (m : Method)
    (r : Response) (rest : List Outcome)
    (h1 : isRetry total m r.status r.retryAfter.isSome = false) :
    urlopen bf total hist m (Outcome.resp r :: rest) =
      ⟨1, [], ExecResult.response r⟩ := by
  simp [urlopen, h1]

theorem urlopen_conn_retry (bf : ℚ) (total : Int) (hist : Nat) (m : Method)
    (rest : List Outcome) (h2 : ¬ total - 1 < 0) :
    urlopen bf total hist m (Outcome.connectionError :: rest) =
      ⟨(urlopen bf (total - 1) (hist + 1) m rest).attempts + 1,
       getBackoffTime bf (hist + 1) ::
         (urlopen bf (total - 1) (hist + 1) m rest).delays,
       (urlopen bf (total - 1) (hist + 1) m rest).result⟩ := by
  simp [urlopen, h2]

theorem urlopen_conn_exhaust (bf : ℚ) (total : Int) (hist : Nat) (m : Method)
    (rest : List Outcome) (h2 : total - 1 < 0) :
    urlopen bf total hist m (Outcome.connectionError :: rest) =
      ⟨1, [], ExecResult.connectFailure⟩ := by
  simp [urlopen, h2]

/-- Status-retry loop: a retryable method receiving `t + 1` consecutive
forcelisted responses (no `Retry-After` header) makes `t + 1` attempts with the
backoff schedule shifted by the current history length, and ends in
`RetryError` carrying the status. -/
theorem urlopen_status_loop (bf : ℚ) (m : Method) (hm : isMethodRetryable m = true)
    (r : Response) (hs : r.status ∈ statusForcelist) (hra : r.retryAfter = none)
    (t : Nat) : ∀ hist : Nat,
    urlopen bf (t : Int) hist m (List.replicate (t + 1) (Outcome.resp r)) =
      ⟨t + 1, (List.range t).map (fun k => getBackoffTime bf (hist + k + 1)),
       ExecResult.retryError r.status⟩ := by
  have hir : ∀ (total : Int) (hra2 : Bool), isRetry total m r.status hra2 = true := by
    intro total hra2
    simp [isRetry, hm, hs]
  induction t with
  | zero =>
      intro hist
      rw [List.replicate_succ, List.replicate_zero]
      exact urlopen_resp_exhaust _ _ _ _ _ _ (hir _ _) (by norm_num)
  | succ t ih =>
      intro hist
      have hcast : ((t + 1 : Nat) : Int) - 1 = (t : Int) := by push_cast; ring
      have hnot : ¬ ((t + 1 : Nat) : Int) - 1 < 0 := by
        rw [hcast]; exact Int.not_lt.mpr (Int.natCast_nonneg t)
      rw [List.replicate_succ, urlopen_resp_retry _ _ _ _ _ _ (hir _ _) hnot,
        hcast, ih (hist + 1), hra]
      simp only [sleepDelay, ExecTrace.mk.injEq]
      refine ⟨trivial, ?_, trivial⟩
      rw [range_map_shift (fun k => getBackoffTime bf (hist + k + 1)) t]
      congr 1
      exact List.map_congr_left
        (fun a _ => by rw [show hist + 1 + a + 1 = hist + (a + 1) + 1 from by omega])

/-- Connection-error loop: any method (including POST/PATCH) suffering `t + 1`
consecutive connection errors makes `t + 1` attempts with the backoff schedule
and ends in a connect failure. -/
theorem urlopen_conn_loop (bf : ℚ) (m : Method) (t : Nat) : ∀ hist : Nat,
    urlopen bf (t : Int) hist m (List.replicate (t + 1) Outcome.connectionError) =
      ⟨t + 1, (List.range t).map (fun k => getBackoffTime bf (hist + k + 1)),
       ExecResult.connectFailure⟩ := by
  induction t with
  | zero =>
      intro hist
      rw [List.replicate_succ, List.replicate_zero]
      exact urlopen_conn_exhaust _ _ _ _ _ (by norm_num)
  | succ t ih =>
      intro hist
      have hcast : ((t + 1 : Nat) : Int) - 1 = (t : Int) := by push_cast; ring
      have hnot : ¬ ((t + 1 : Nat) : Int) - 1 < 0 := by
        rw [hcast]; exact Int.not_lt.mpr (Int.natCast_nonneg t)
      rw [List.replicate_succ, urlopen_conn_retry _ _ _ _ _ hnot, hcast, ih (hist + 1)]
      simp only [ExecTrace.mk.injEq]
      refine ⟨trivial, ?_, trivial⟩
      rw [range_map_shift (fun k => getBackoffTime bf (hist + k + 1)) t]
      congr 1
      exact List.map_congr_left
        (fun a _ => by rw [show hist + 1 + a + 1 = hist + (a + 1) + 1 from by omega])

theorem orderStatusOfString_none (s : String) (h : s ∉ orderStatusStrings) :
    orderStatusOfString s = none := by
  simp [orderStatusStrings] at h
  obtain ⟨h1, h2, h3, h4, h5, h6, h7⟩ := h
  simp [orderStatusOfString, h1, h2, h3, h4, h5, h6, h7]

theorem orderStatusOfString_mem (s : String) (h : s ∈ orderStatusStrings) :
    ∃ st, orderStatusOfString s = some st ∧ OrderStatus.value st = s := by
  simp [orderStatusStrings] at h
  rcases h with h | h | h | h | h | h | h <;> subst h <;> exact ⟨_, rfl, rfl⟩

/-- Sanity check: a complete well-formed order object decodes, and its status
is the corresponding enumeration member. -/
theorem order_decode_valid_example :
    (Order.from_dict validOrderDict).toOption.map Order.status =
      some OrderStatus.paid := by
  rfl

/-- C4: for every raw JSON object whose `status` field is a string, decoding
through `Order.from_dict` fails with `ValueError` (the decode error raised by
`OrderStatus(...)`) whenever the string is outside the closed enumeration
`{pending, paid, processing, shipped, delivered, cancelled, refunded}`, and
whenever the string is in the closed set it converts to the member whose
canonical value is that string — any successfully decoded order carries
exactly that member, never a default or coerced status. -/
theorem C4_order_status_decode (d : Dict) (s : String)
    (h : dictLookup d "status" = some (Json.str s)) :
    (s ∉ orderStatusStrings → Order.from_dict d = .error .valueError) ∧
    (s ∈ orderStatusStrings →
      ∃ st, orderStatusOfString s = some st ∧ OrderStatus.value st = s ∧
        ∀ o, Order.from_dict d = .ok o → o.status = st) := by
  constructor
  · intro hs
    have h0 : orderStatusOfString s = none := orderStatusOfString_none s hs
    simp [Order.from_dict, dictGet, h, orderStatusOfJson, h0, Bind.bind, Except.bind]
  · intro hs
    obtain ⟨st, hst, hv⟩ := orderStatusOfString_mem s hs
    refine ⟨st, hst, hv, ?_⟩
    intro o ho
    rw [Order.from_dict] at ho
    simp only [dictGet, h, orderStatusOfJson, hst, Bind.bind, Except.bind] at ho
    iterate 14 all_goals (try split at ho)
    any_goals simp_all
    subst ho
    rfl

/-- C4 witness: the theorem applied to a concrete order object whose status is
`"archived"`, together with the concrete evaluation of the decode. -/
theorem C4_order_status_decode_witness :
    dictLookup orderDictArchived "status" = some (Json.str "archived") ∧
    Order.from_dict orderDictArchived = .error .valueError ∧
    (("archived" ∉ orderStatusStrings →
        Order.from_dict orderDictArchived = .error .valueError) ∧
     ("archived" ∈ orderStatusStrings →
        ∃ st, orderStatusOfString "archived" = some st ∧
          OrderStatus.value st = "archived" ∧
          ∀ o, Order.from_dict orderDictArchived = .ok o → o.status = st)) :=
  ⟨rfl, rfl, C4_order_status_decode orderDictArchived "archived" rfl⟩

/-- C1 (amended): with `max_retries = n` (default 3), a request whose method is
in urllib3's default `allowed_methods` receiving only forcelisted statuses (no
`Retry-After` header) makes exactly `n + 1` attempts, sleeping the configured
backoff schedule (0 before the first retry, then `min(120, 0.5 * 2 ^ (k - 1))`
before retry `k`), and surfaces the last observed failure as a `RetryError`
carrying that status; connection-error transport failures are retried the same
way for every method; but a method outside the allowlist (POST, PATCH) is not
retried on status at all — the first response is returned after one attempt. -/
theorem C1_retry_policy (n : Nat) (m mConn mPost : Method)
    (hm : isMethodRetryable m = true) (hmp : isMethodRetryable mPost = false)
    (r : Response) (hs : r.status ∈ statusForcelist) (hra : r.retryAfter = none)
    (rest : List Outcome) :
    shopExec n m (List.replicate (n + 1) (Outcome.resp r)) =
      ⟨n + 1, defaultBackoffs n, ExecResult.retryError r.status⟩ ∧
    shopExec n mConn (List.replicate (n + 1) Outcome.connectionError) =
      ⟨n + 1, defaultBackoffs n, ExecResult.connectFailure⟩ ∧
    shopExec n mPost (Outcome.resp r :: rest) =
      ⟨1, [], ExecResult.response r⟩ := by
  have hb : ((List.range n).map (fun k => getBackoffTime backoff_factor (0 + k + 1))) =
      defaultBackoffs n := by
    rw [defaultBackoffs]
    exact List.map_congr_left (fun a _ => by rw [Nat.zero_add])
  refine ⟨?_, ?_, ?_⟩
  · rw [shopExec, urlopen_status_loop backoff_factor m hm r hs hra n 0, hb]
  · rw [shopExec, urlopen_conn_loop backoff_factor mConn n 0, hb]
  · exact urlopen_resp_return _ _ _ _ _ _ (by simp [isRetry, hmp])

/-- C1 counterexample: with the default configuration (`max_retries = 3`), a
POST receiving 503 responses makes exactly one attempt — not 3 + 1 — because
urllib3's default `allowed_methods` excludes POST from status retries, and the
503 is simply returned; moreover the backoff delays of a retried GET are
`[0, 1, 2]`: the first delay is zero, not 0.5, so the schedule does not start
at the base factor. -/
theorem C1_retry_policy_counterexample :
    (shopExec 3 Method.POST [Outcome.resp resp503, Outcome.resp resp503,
      Outcome.resp resp503, Outcome.resp resp503]).attempts = 1 ∧
    (shopExec 3 Method.POST [Outcome.resp resp503, Outcome.resp resp503,
      Outcome.resp resp503, Outcome.resp resp503]).result =
      ExecResult.response resp503 ∧
    (shopExec 3 Method.GET [Outcome.resp resp503, Outcome.resp resp503,
      Outcome.resp resp503, Outcome.resp resp503]).delays = [0, 1, 2] := by
  refine ⟨rfl, rfl, ?_⟩
  have h1 : getBackoffTime backoff_factor 1 = 0 := by
    norm_num [getBackoffTime]
  have h2 : getBackoffTime backoff_factor 2 = 1 := by
    norm_num [getBackoffTime, backoffMax, backoff_factor, min_def]
  have h3 : getBackoffTime backoff_factor 3 = 2 := by
    norm_num [getBackoffTime, backoffMax, backoff_factor, min_def]
  simp [shopExec, urlopen, isRetry, isMethodRetryable, allowedMethods,
    statusForcelist, resp503, sleepDelay, h1, h2, h3]

/-- C1 witness: the amended theorem instantiated at the default
`max_retries = 3` with a GET under 503s, a PUT under connection errors, and a
POST under a 503. -/
theorem C1_retry_policy_witness :
    isMethodRetryable Method.GET = true ∧
    isMethodRetryable Method.POST = false ∧
    resp503.status ∈ statusForcelist ∧ resp503.retryAfter = none ∧
    (shopExec 3 Method.GET (List.replicate 4 (Outcome.resp resp503)) =
        ⟨4, defaultBackoffs 3, ExecResult.retryError resp503.status⟩ ∧
     shopExec 3 Method.PUT (List.replicate 4 Outcome.connectionError) =
        ⟨4, defaultBackoffs 3, ExecResult.connectFailure⟩ ∧
     shopExec 3 Method.POST [Outcome.resp resp503] =
        ⟨1, [], ExecResult.response resp503⟩) :=
  ⟨by decide, by decide, by decide, rfl,
   C1_retry_policy 3 Method.GET Method.PUT Method.POST (by decide) (by decide)
     resp503 (by decide) rfl []⟩

/-- C2 (amended): for every failing response (status ≥ 400) whose body parses
as a JSON object, the raised typed error carries the envelope's `code`
(defaulting to `"unknown"`), `message` (defaulting to the raw response text)
and `details`; when the body cannot be parsed as JSON the typed error has code
`"http_error"` and message `"HTTP {status}: {text}"`.  (A body parsing to a
non-object JSON value instead raises `AttributeError` — see the
counterexample.) -/
theorem C2_error_envelope (status : Nat) (text : String) (fields : Dict)
    (ra : Option ℚ) (h : 400 ≤ status) :
    handleResponse ⟨status, text, some (Json.obj fields), ra⟩ =
      .error (.shopAPIError
        ((dictLookup fields "code").getD (.str "unknown"))
        ((dictLookup fields "message").getD (.str text))
        ((dictLookup fields "details").getD .null)) ∧
    handleResponse ⟨status, text, none, ra⟩ =
      .error (.shopAPIError (.str "http_error")
        (.str ("HTTP " ++ toString status ++ ": " ++ text)) .null) := by
  constructor <;> simp [handleResponse, h]

/-- C2 counterexample: a 400 response whose body parses as the JSON array
`[1]` makes `error_data.get` raise `AttributeError` — no typed error with a
code and message is raised. -/
theorem C2_error_envelope_counterexample :
    handleResponse ⟨400, "[1]", some (Json.arr [Json.num 1]), none⟩ =
      .error .attributeError ∧
    isTypedAPIError
      (handleResponse ⟨400, "[1]", some (Json.arr [Json.num 1]), none⟩) = false :=
  ⟨rfl, rfl⟩

/-- C2 witness: the spec's example — envelope
`{"code": "invalid_sku", "message": "SKU already exists"}` with status 409 —
and an unparseable 409 body. -/
theorem C2_error_envelope_witness :
    400 ≤ 409 ∧
    (handleResponse ⟨409, "raw", some (Json.obj
        [("code", Json.str "invalid_sku"),
         ("message", Json.str "SKU already exists")]), none⟩ =
      .error (.shopAPIError (.str "invalid_sku") (.str "SKU already exists") .null) ∧
     handleResponse ⟨409, "raw", none, none⟩ =
      .error (.shopAPIError (.str "http_error") (.str "HTTP 409: raw") .null)) :=
  ⟨by decide,
   C2_error_envelope 409 "raw"
     [("code", Json.str "invalid_sku"), ("message", Json.str "SKU already exists")]
     none (by decide)⟩

/-- C3 (amended): for an ASCII signature string, `verify_signature` returns
true iff the signature equals the lowercase hexadecimal HMAC-SHA256 of the
payload keyed by the secret; hence any ASCII-preserving mutation of the
signature, and any mutation of payload or secret that changes the digest,
yields false.  (A single-bit mutation that makes the signature non-ASCII
raises `TypeError` instead of returning false — see the counterexample; the
constant-time character of the comparison is a timing property outside this
model.) -/
theorem C3_verify_signature_iff (payload signature secret : String)
    (h : strAscii signature = true) :
    verify_signature payload signature secret = .ok true ↔
      signature = expectedSigHex secret payload := by
  rw [verify_signature_ascii payload signature secret h]
  simp

set_option maxRecDepth 8000 in
/-- C3 counterexample: flipping bit 7 of the first character of the correct
signature of the empty payload under the empty secret — a single-bit mutation
of the signature — makes `verify_signature` raise `TypeError` out of
`hmac.compare_digest` rather than return false. -/
theorem C3_verify_signature_counterexample :
    flipCharBit0 (expectedSigHex "" "") 7 ≠ expectedSigHex "" "" ∧
    verify_signature "" (flipCharBit0 (expectedSigHex "" "") 7) "" =
      .error .typeError := by
  constructor
  · decide
  · exact verify_signature_nonascii _ _ _ (by decide)

/-- C3 witness: the iff instantiated at an ASCII signature. -/
theorem C3_verify_signature_iff_witness :
    strAscii "ab" = true ∧
    (verify_signature "payload" "ab" "secret" = .ok true ↔
      "ab" = expectedSigHex "secret" "payload") :=
  ⟨by decide, C3_verify_signature_iff "payload" "ab" "secret" (by decide)⟩

/-- C5 (amended): a response with a non-retryable 4xx status (400, 401, 403,
404) is returned after exactly one attempt with no retry and no backoff sleep,
for every method; the failure is surfaced as the typed `ShopAPIError` whenever
the body parses as a JSON object or fails to parse.  (A body parsing to a
non-object JSON value raises `AttributeError` instead — see the
counterexample.) -/
theorem C5_nonretryable (m : Method) (s : Nat) (text : String)
    (body : Option Json) (ra : Option ℚ) (rest : List Outcome)
    (hs : s ∈ ([400, 401, 403, 404] : List Nat))
    (hbody : objOrUnparseable body = true) :
    shopExec 3 m (Outcome.resp ⟨s, text, body, ra⟩ :: rest) =
      ⟨1, [], ExecResult.response ⟨s, text, body, ra⟩⟩ ∧
    isTypedAPIError (handleResponse ⟨s, text, body, ra⟩) = true := by
  have hns : isRetry 3 m s (Option.isSome ra) = false := by
    simp only [List.mem_cons, List.not_mem_nil, or_false] at hs
    rcases hs with h | h | h | h <;> subst h <;>
      simp [isRetry, statusForcelist, retryAfterStatusCodes]
  constructor
  · rw [shopExec]
    exact urlopen_resp_return _ _ _ _ _ _ hns
  · have h4 : 400 ≤ s := by
      simp only [List.mem_cons, List.not_mem_nil, or_false] at hs
      rcases hs with h | h | h | h <;> omega
    cases body with
    | none => simp [handleResponse, h4, isTypedAPIError]
    | some j =>
        cases j <;>
          simp_all [handleResponse, h4, isTypedAPIError, objOrUnparseable]

/-- C5 counterexample: a 400 response whose body parses as the JSON array
`[1]` does fail after one attempt without retry, but the surfaced failure is
an `AttributeError`, not a typed API error. -/
theorem C5_nonretryable_counterexample :
    (shopExec 3 Method.GET
      [Outcome.resp ⟨400, "[1]", some (Json.arr [Json.num 1]), none⟩]).attempts = 1 ∧
    handleResponse ⟨400, "[1]", some (Json.arr [Json.num 1]), none⟩ =
      .error .attributeError ∧
    isTypedAPIError
      (handleResponse ⟨400, "[1]", some (Json.arr [Json.num 1]), none⟩) = false :=
  ⟨rfl, rfl, rfl⟩

/-- C5 witness: a POST receiving a 404 with an unparseable body: one attempt,
no sleep, typed error. -/
theorem C5_nonretryable_witness :
    (404 ∈ ([400, 401, 403, 404] : List Nat)) ∧
    objOrUnparseable none = true ∧
    (shopExec 3 Method.POST [Outcome.resp ⟨404, "nf", none, none⟩] =
        ⟨1, [], ExecResult.response ⟨404, "nf", none, none⟩⟩ ∧
     isTypedAPIError (handleResponse ⟨404, "nf", none, none⟩) = true) :=
  ⟨by decide, rfl, C5_nonretryable Method.POST 404 "nf" none none [] (by decide) rfl⟩

/-- C6 (amended): `ProductsAPI.create` omits absent optional fields
(`compare_at_price`, `attributes`) from the request body, `ProductsAPI.list`
omits absent filters (`category_id`, `status`, `search`) from the query
string, and `WebhooksAPI.update` omits every absent optional; however
`OrdersAPI.cancel` and `OrdersAPI.refund` always include their optional
fields, sending an explicit JSON `null` when the argument is absent. -/
theorem C6_omit_optionals (sku name description : String) (price : ℚ)
    (category_id : String) (images : Option (List String)) (inventory : ℚ)
    (page limit : ℚ) (oid : String) (reason : Option String) (amount : Option ℚ) :
    dictLookup (products_create_body sku name description price category_id
      images inventory none none) "compare_at_price" = none ∧
    dictLookup (products_create_body sku name description price category_id
      images inventory none none) "attributes" = none ∧
    dictLookup (products_list_req page limit none none none).params "category_id" = none ∧
    dictLookup (products_list_req page limit none none none).params "status" = none ∧
    dictLookup (products_list_req page limit none none none).params "search" = none ∧
    webhooks_update_body none none none = [] ∧
    (orders_cancel_req oid reason).body =
      some [("reason", reason.elim Json.null Json.str)] ∧
    (orders_refund_req oid amount reason).body =
      some [("amount", amount.elim Json.null Json.num),
            ("reason", reason.elim Json.null Json.str)] :=
  ⟨rfl, rfl, rfl, rfl, rfl, rfl, rfl, rfl⟩

/-- C6 counterexample: `OrdersAPI.cancel` called without a reason sends the
body `{"reason": null}`, and `OrdersAPI.refund` without arguments sends
`{"amount": null, "reason": null}` — absent optionals transmitted as explicit
nulls, not omitted. -/
theorem C6_omit_optionals_counterexample :
    (orders_cancel_req "ord_1" none).body = some [("reason", Json.null)] ∧
    dictLookup ((orders_cancel_req "ord_1" none).body.getD []) "reason" =
      some Json.null ∧
    (orders_refund_req "ord_1" none none).body =
      some [("amount", Json.null), ("reason", Json.null)] :=
  ⟨rfl, rfl, rfl⟩

/-- C7: a 204 response is never retried (204 is in no retry list), the call
makes exactly one attempt, and `_request` returns the empty object `{}` for
every body — parseable or not — so no JSON decode of the body is attempted. -/
theorem C7_status_204 (m : Method) (text : String) (body : Option Json)
    (ra : Option ℚ) (rest : List Outcome) :
    shopExec 3 m (Outcome.resp ⟨204, text, body, ra⟩ :: rest) =
      ⟨1, [], ExecResult.response ⟨204, text, body, ra⟩⟩ ∧
    handleResponse ⟨204, text, body, ra⟩ = .ok (Json.obj []) := by
  constructor
  · rw [shopExec]
    exact urlopen_resp_return _ _ _ _ _ _
      (by simp [isRetry, statusForcelist, retryAfterStatusCodes])
  · simp [handleResponse]

/-- C8: `products.list(category_id="shoes", status="active")` with the default
`page=1`, `limit=20` issues `GET /products` with exactly the query parameters
`page=1, limit=20, category_id=shoes, status=active`, and the absent `search`
parameter is omitted entirely. -/
theorem C8_products_list_query :
    products_list_req 1 20 (some "shoes") (some "active") none =
      ⟨Method.GET, "/products",
       [("page", Json.num 1), ("limit", Json.num 20),
        ("category_id", Json.str "shoes"), ("status", Json.str "active")],
       none⟩ ∧
    dictLookup (products_list_req 1 20 (some "shoes") (some "active") none).params
      "search" = none :=
  ⟨rfl, rfl⟩

/-- C9 (amended): `verify_signature` returns a boolean for every payload,
secret, and ASCII signature — mismatched length or content simply yields
false; a non-ASCII signature string instead raises `TypeError` out of
`hmac.compare_digest`. -/
theorem C9_verify_signature_total (payload signature secret : String)
    (h : strAscii signature = true) :
    ∃ b : Bool, verify_signature payload signature secret = .ok b :=
  ⟨_, verify_signature_ascii payload signature secret h⟩

/-- C9 counterexample: a malformed (non-ASCII) signature makes
`verify_signature` raise `TypeError` rather than return false. -/
theorem C9_verify_signature_counterexample :
    verify_signature "payload" "é" "secret" = .error .typeError := rfl

/-- C9 witness: a well-formed call returning a boolean. -/
theorem C9_verify_signature_total_witness :
    strAscii "deadbeef" = true ∧
    ∃ b : Bool, verify_signature "p" "deadbeef" "s" = .ok b :=
  ⟨by decide, C9_verify_signature_total "p" "deadbeef" "s" (by decide)⟩

theorem products_create_body_compare_lookup (sku name description : String)
    (price : ℚ) (category_id : String) (images : Option (List String))
    (inventory : ℚ) (cap : Option ℚ)
    (attributes : Option (List (String × String))) :
    dictLookup (products_create_body sku name description price category_id
        images inventory cap attributes) "compare_at_price" =
      match cap with
      | some c => if c ≠ 0 then some (Json.num c) else none
      | none => none := by
  rcases cap with _ | c
  · rcases attributes with _ | a <;>
      simp [products_create_body, dictLookup_append, dictLookup] <;>
      split <;> simp [dictLookup_append, dictLookup]
  · by_cases hc : c = 0 <;>
      rcases attributes with _ | a <;>
      simp [products_create_body, dictLookup_append, dictLookup, hc] <;>
      split <;> simp [dictLookup_append, dictLookup]

/-- C10: in `products.create`, a `compare_at_price` of `0.0` and an
`attributes` equal to the empty map are falsy, so `if compare_at_price:` /
`if attributes:` treat them exactly like absent arguments: the fields are
omitted from the request body, and no body assembled by `products.create` can
ever carry `compare_at_price` with value `0`. -/
theorem C10_zero_compare_at_price (sku name description : String) (price : ℚ)
    (category_id : String) (images : Option (List String)) (inventory : ℚ)
    (attributes : Option (List (String × String))) :
    products_create_body sku name description price category_id images
        inventory (some 0) attributes =
      products_create_body sku name description price category_id images
        inventory none attributes ∧
    products_create_body sku name description price category_id images
        inventory none (some []) =
      products_create_body sku name description price category_id images
        inventory none none ∧
    ∀ cap : Option ℚ,
      dictLookup (products_create_body sku name description price category_id
        images inventory cap attributes) "compare_at_price" ≠
        some (Json.num 0) := by
  refine ⟨by simp [products_create_body], by simp [products_create_body], ?_⟩
  intro cap
  rw [products_create_body_compare_lookup]
  rcases cap with _ | c
  · simp
  · by_cases hc : c = 0
    · simp [hc]
    · simp [hc]
